import Mathlib

/-!
Verification of the silo-aware database partitioning script
(`bin/split-silo-database`).  The script classifies registered models'
tables into control/region table lists from silo metadata, rewrites
organization mappings from a legacy region name to the configured
monolith region name, and dumps/restores the two table groups into
databases named "control" and "region" by running `pg_dump`/`psql`
inside a postgres container.

The embedding below is shallow: container execution is modelled by an
executor function from (container name, wrapped shell command) to
(exit code, captured output), and each operation is a pure function
returning the ordered trace of observable events (console echoes and
container execs) it produces, together with its result.
-/

namespace SplitSilo

/-- Silo modes, from `sentry.silo.base.SiloMode`. -/
inductive SiloMode where
  | monolith
  | control
  | region
deriving DecidableEq, Repr

/-- A registered model as the classifier sees it: its backing table name
(`model._meta.db_table`) and its silo-limit metadata
(`model._meta.silo_limit`, absent for models without annotations;
when present, `modes` is its set of allowed silo modes). -/
structure ModelInfo where
  db_table : String
  silo_limit : Option (List SiloMode)
deriving DecidableEq, Repr

/-- The environment's answer to `container.exec_run`: given the container
name and the wrapped shell command string, the exit code and the
captured output. -/
abbrev Executor := String → String → Nat × String

/-- Observable events of a run: a `click.echo` line, or a container exec
of a wrapped shell command. -/
inductive Event where
  | echo (line : String)
  | exec (container : String) (cmd : String)
deriving DecidableEq, Repr

/-- `wrapped_command` from `exec_run`:
`f'sh -c "{" ".join(command)}"'`. -/
def wrapped_command (command : List String) : String :=
  "sh -c \"" ++ String.intercalate " " command ++ "\""

/-- `exec_run(container, command)`: wraps the command, executes it in the
container, echoes a failure notice together with the captured output when
the exit code is non-zero, and returns the output (never the exit code). -/
def exec_run (ex : Executor) (container : String) (command : List String) :
    List Event × String :=
  let w := wrapped_command command
  let r := ex container w
  let failEchoes :=
    if r.1 ≠ 0 then
      [Event.echo "Container operation Failed!",
       Event.echo ("Container operation failed with " ++ r.2)]
    else []
  (Event.exec container w :: failEchoes, r.2)

/-- The postgres container name: `"sentry-postgres-1"` unless the
`USE_OLD_DEVSERVICES` environment variable equals `"1"`, in which case
`"sentry_postgres"`. -/
def postgres_container (useOldDevservices : Option String) : String :=
  if useOldDevservices ≠ some "1" then "sentry-postgres-1" else "sentry_postgres"

/-- The `pg_dump` command built by `split_database`: the fixed head, one
`-t table` pair per table of the provided list, and the redirection to
`/tmp/{destination}-tables.sql`. -/
def dump_command (tables : List String) (source destination : String) :
    List String :=
  ["pg_dump", "-U", "postgres", "-d", source, "--clean"]
    ++ tables.flatMap (fun table => ["-t", table])
    ++ [">", "/tmp/" ++ destination ++ "-tables.sql"]

/-- The `dropdb` command run when `reset` is set. -/
def drop_command (destination : String) : List String :=
  ["dropdb", "-U", "postgres", "--if-exists", destination]

/-- The `createdb` command run when `reset` is set. -/
def create_command (destination : String) : List String :=
  ["createdb", "-U", "postgres", destination]

/-- The `citext_command` of `split_database`. -/
def citext_command (destination : String) : List String :=
  ["psql", "-U", "postgres", destination, "-c",
   "\x27CREATE EXTENSION IF NOT EXISTS citext\x27"]

/-- The `import_command` of `split_database`: `psql` fed from the dump
file. -/
def import_command (destination : String) : List String :=
  ["psql", "-U", "postgres", destination, "<",
   "/tmp/" ++ destination ++ "-tables.sql"]

/-- `split_database(tables, source, destination, reset, verbose)`: the
ordered trace of echo and exec events it produces, translated line by
line from the source. -/
def split_database (ex : Executor) (useOldDevservices : Option String)
    (tables : List String) (source destination : String)
    (reset verbose : Bool) : List Event :=
  let command := dump_command tables source destination
  let postgres := postgres_container useOldDevservices
  [Event.echo (">> Dumping tables from " ++ source ++ " database")]
    ++ (if verbose then
          [Event.echo (">> Running " ++ String.intercalate " " command)]
        else [])
    ++ (exec_run ex postgres command).1
    ++ (if reset then
          [Event.echo (">> Dropping existing " ++ destination ++ " database")]
            ++ (exec_run ex postgres (drop_command destination)).1
            ++ (exec_run ex postgres (create_command destination)).1
        else [])
    ++ (if verbose then
          [Event.echo
            (">> RUNNING: " ++ String.intercalate " " (citext_command destination))]
        else [])
    ++ (exec_run ex postgres (citext_command destination)).1
    ++ [Event.echo (">> Building " ++ destination ++ " database from dump file")]
    ++ (if verbose then
          [Event.echo
            (">> Running " ++ String.intercalate " " (import_command destination))]
        else [])
    ++ (exec_run ex postgres (import_command destination)).1

/-- The container commands executed in a trace, in order. -/
def execCmds (trace : List Event) : List String :=
  trace.filterMap (fun e =>
    match e with
    | Event.exec _ c => some c
    | Event.echo _ => none)

/-- An `OrganizationMapping` record, modelled by its `region_name` field
together with representative further fields (`organization_id`, `slug`)
standing for the rest of the record. -/
structure OrganizationMapping where
  organization_id : Nat
  slug : String
  region_name : String
deriving DecidableEq, Repr

/-- Result of `revise_organization_mappings`: the mapping table after the
bulk update, and the echoed lines. -/
structure ReviseResult where
  mappings : List OrganizationMapping
  echoes : List String
deriving DecidableEq, Repr

/-- `revise_organization_mappings(legacy_region_name)` over an explicit
mapping table, with `monolith_region` standing for
`settings.SENTRY_MONOLITH_REGION`: when the monolith region equals the
legacy name, echo the no-op notice; otherwise count the records whose
region name equals the legacy name, update exactly those to the monolith
region, and echo the count. -/
def revise_organization_mappings (monolith_region : String)
    (mappings : List OrganizationMapping) (legacy_region_name : String) :
    ReviseResult :=
  if monolith_region = legacy_region_name then
    { mappings := mappings,
      echoes := ["> No OrganizationMapping have been modified. Set \x27SENTRY_MONOLITH_REGION\x27 in sentry.conf.py to update monolith mappings."] }
  else
    let qs := mappings.filter (fun r => r.region_name = legacy_region_name)
    let record_count := qs.length
    { mappings := mappings.map (fun r =>
        if r.region_name = legacy_region_name then
          { r with region_name := monolith_region }
        else r),
      echoes := ["> " ++ toString record_count
        ++ " OrganizationMapping record(s) have been updated from \x27"
        ++ legacy_region_name ++ "\x27 to \x27" ++ monolith_region ++ "\x27"] }

/-- The fixed seed of the region table list in `main`. -/
def region_seed : List String := ["django_migrations", "django_content_type"]

/-- The fixed seed of the control table list in `main`. -/
def control_seed : List String :=
  ["django_migrations", "django_admin_log", "django_content_type",
   "django_site", "django_session", "auth_user", "auth_group",
   "auth_permission", "auth_group_permissions", "auth_user_groups",
   "auth_user_user_permissions"]

/-- The classifier state grown by the model loop of `main`: the control
and region table lists and the warning lines echoed so far. -/
structure ClassifyState where
  control_tables : List String
  region_tables : List String
  warnings : List String
deriving DecidableEq, Repr

/-- One iteration of the model loop of `main`: a model without silo
metadata gets a warning and is skipped; otherwise its table is appended
to the control list when CONTROL is allowed and to the region list when
REGION is allowed. -/
def classifyStep (st : ClassifyState) (model : ModelInfo) : ClassifyState :=
  match model.silo_limit with
  | none =>
    { st with warnings := st.warnings
        ++ ["> Could not find silo assignment for " ++ model.db_table] }
  | some modes =>
    let st1 :=
      if SiloMode.control ∈ modes then
        { st with control_tables := st.control_tables ++ [model.db_table] }
      else st
    if SiloMode.region ∈ modes then
      { st1 with region_tables := st1.region_tables ++ [model.db_table] }
    else st1

/-- The model loop of `main` over the full registry, starting from the
seeded lists. -/
def classify (registry : List ModelInfo) : ClassifyState :=
  registry.foldl classifyStep
    { control_tables := control_seed, region_tables := region_seed,
      warnings := [] }

/-- Result of a `main` run: the mapping table after the rewrite and the
ordered event trace. -/
structure MainResult where
  mappings : List OrganizationMapping
  events : List Event
deriving Repr

/-- `main(database, reset, verbose, legacy_region_name)`: classify the
registry (echoing warnings), rewrite the organization mappings, then
split the control tables into `"control"` and the region tables into
`"region"`, both from the CLI-provided source database. -/
def main_run (registry : List ModelInfo) (ex : Executor)
    (useOldDevservices : Option String) (monolith_region : String)
    (mappings : List OrganizationMapping) (database : String)
    (reset verbose : Bool) (legacy_region_name : String) : MainResult :=
  let st := classify registry
  let rev := revise_organization_mappings monolith_region mappings
    legacy_region_name
  { mappings := rev.mappings,
    events := st.warnings.map Event.echo
      ++ rev.echoes.map Event.echo
      ++ split_database ex useOldDevservices st.control_tables database
          "control" reset verbose
      ++ split_database ex useOldDevservices st.region_tables database
          "region" reset verbose }

/-- The `-t` arguments of a command line: every element directly preceded
by a `-t` flag, in order. -/
def tArgs : List String → List String
  | [] => []
  | [_] => []
  | x :: y :: rest =>
    if x = "-t" then y :: tArgs rest else tArgs (y :: rest)

/-- Whether a model carries silo metadata that allows the given mode. -/
def hasMode (m : ModelInfo) (mode : SiloMode) : Bool :=
  match m.silo_limit with
  | none => false
  | some modes => decide (mode ∈ modes)

/- ### Helper lemmas -/

theorem execCmds_append (a b : List Event) :
    execCmds (a ++ b) = execCmds a ++ execCmds b := by
  simp [execCmds]

theorem execCmds_exec_run (ex : Executor) (c : String) (cmd : List String) :
    execCmds (exec_run ex c cmd).1 = [wrapped_command cmd] := by
  simp only [exec_run]
  split <;> simp [execCmds]

theorem execCmds_echo (s : String) : execCmds [Event.echo s] = [] := rfl

theorem execCmds_echo_cons (s : String) (rest : List Event) :
    execCmds (Event.echo s :: rest) = execCmds rest := by
  simp [execCmds]

theorem execCmds_split_database (ex : Executor) (env : Option String)
    (tables : List String) (source destination : String)
    (reset verbose : Bool) :
    execCmds (split_database ex env tables source destination reset verbose) =
      [wrapped_command (dump_command tables source destination)]
        ++ (if reset then
              [wrapped_command (drop_command destination),
               wrapped_command (create_command destination)]
            else [])
        ++ [wrapped_command (citext_command destination),
            wrapped_command (import_command destination)] := by
  cases reset <;> cases verbose <;>
    simp [split_database, execCmds_append, execCmds_exec_run, execCmds_echo,
      execCmds_echo_cons]

theorem tArgs_cons_ne (x : String) (l : List String) (h : x ≠ "-t") :
    tArgs (x :: l) = tArgs l := by
  cases l with
  | nil => simp [tArgs]
  | cons y rest => simp [tArgs, h]

theorem tArgs_flag (y : String) (rest : List String) :
    tArgs ("-t" :: y :: rest) = y :: tArgs rest := by
  simp [tArgs]

theorem tArgs_flatMap (tables : List String) (tail : List String) :
    tArgs (tables.flatMap (fun t => ["-t", t]) ++ tail) =
      tables ++ tArgs tail := by
  induction tables with
  | nil => simp
  | cons t ts ih =>
    rw [List.flatMap_cons, List.append_assoc]
    show tArgs ("-t" :: t :: (ts.flatMap (fun t => ["-t", t]) ++ tail)) = _
    rw [tArgs_flag, ih]
    rfl

theorem classifyStep_control (st : ClassifyState) (m : ModelInfo) :
    (classifyStep st m).control_tables =
      st.control_tables
        ++ (if hasMode m SiloMode.control then [m.db_table] else []) := by
  unfold classifyStep hasMode
  cases h : m.silo_limit with
  | none => simp
  | some modes =>
    by_cases hc : SiloMode.control ∈ modes <;>
      by_cases hr : SiloMode.region ∈ modes <;> simp [hc, hr]

theorem classifyStep_region (st : ClassifyState) (m : ModelInfo) :
    (classifyStep st m).region_tables =
      st.region_tables
        ++ (if hasMode m SiloMode.region then [m.db_table] else []) := by
  unfold classifyStep hasMode
  cases h : m.silo_limit with
  | none => simp
  | some modes =>
    by_cases hc : SiloMode.control ∈ modes <;>
      by_cases hr : SiloMode.region ∈ modes <;> simp [hc, hr]

theorem classify_fold_control (registry : List ModelInfo) (st : ClassifyState) :
    (registry.foldl classifyStep st).control_tables =
      st.control_tables
        ++ (registry.filter (fun m => hasMode m SiloMode.control)).map
            ModelInfo.db_table := by
  induction registry generalizing st with
  | nil => simp
  | cons m ms ih =>
    rw [List.foldl_cons, ih, classifyStep_control]
    by_cases hm : hasMode m SiloMode.control <;> simp [hm, List.filter_cons]

theorem classify_fold_region (registry : List ModelInfo) (st : ClassifyState) :
    (registry.foldl classifyStep st).region_tables =
      st.region_tables
        ++ (registry.filter (fun m => hasMode m SiloMode.region)).map
            ModelInfo.db_table := by
  induction registry generalizing st with
  | nil => simp
  | cons m ms ih =>
    rw [List.foldl_cons, ih, classifyStep_region]
    by_cases hm : hasMode m SiloMode.region <;> simp [hm, List.filter_cons]

theorem classify_control (registry : List ModelInfo) :
    (classify registry).control_tables =
      control_seed
        ++ (registry.filter (fun m => hasMode m SiloMode.control)).map
            ModelInfo.db_table := by
  rw [classify, classify_fold_control]

theorem classify_region (registry : List ModelInfo) :
    (classify registry).region_tables =
      region_seed
        ++ (registry.filter (fun m => hasMode m SiloMode.region)).map
            ModelInfo.db_table := by
  rw [classify, classify_fold_region]

/- ### Claim theorems -/

/-- C6: `split_database` executes, in order: (1) the `pg_dump` of the
given tables from `source` with `--clean`, redirected to
`/tmp/{destination}-tables.sql`; (2) only if `reset` is set, the
`dropdb --if-exists` and then `createdb` of the destination; (3) the
`CREATE EXTENSION IF NOT EXISTS citext` psql command against the
destination; (4) the `psql` restore of the destination fed from the dump
file. -/
theorem C6_split_database_step_order (ex : Executor) (env : Option String)
    (tables : List String) (source destination : String)
    (reset verbose : Bool) :
    execCmds (split_database ex env tables source destination reset verbose) =
      [wrapped_command
        (["pg_dump", "-U", "postgres", "-d", source, "--clean"]
          ++ tables.flatMap (fun table => ["-t", table])
          ++ [">", "/tmp/" ++ destination ++ "-tables.sql"])]
      ++ (if reset then
            [wrapped_command
              ["dropdb", "-U", "postgres", "--if-exists", destination],
             wrapped_command ["createdb", "-U", "postgres", destination]]
          else [])
      ++ [wrapped_command
            ["psql", "-U", "postgres", destination, "-c",
             "\x27CREATE EXTENSION IF NOT EXISTS citext\x27"],
          wrapped_command
            ["psql", "-U", "postgres", destination, "<",
             "/tmp/" ++ destination ++ "-tables.sql"]] := by
  rw [execCmds_split_database]
  rfl

/-- C5: a non-zero exit code from a container exec makes `exec_run` echo
the failure notice and the captured output and still return the output
(no exception, a single execution of the command); and the sequence of
container commands executed by `split_database` is the same for every
executor, so a failing step prevents no subsequent step. -/
theorem C5_failures_nonfatal (ex ex2 : Executor) (env : Option String)
    (tables : List String) (source destination : String)
    (reset verbose : Bool) :
    execCmds (split_database ex env tables source destination reset verbose) =
      execCmds (split_database ex2 env tables source destination reset verbose)
    ∧ ∀ container command,
        (ex container (wrapped_command command)).1 ≠ 0 →
          (exec_run ex container command).1 =
            [Event.exec container (wrapped_command command),
             Event.echo "Container operation Failed!",
             Event.echo ("Container operation failed with "
               ++ (ex container (wrapped_command command)).2)]
          ∧ (exec_run ex container command).2 =
              (ex container (wrapped_command command)).2 := by
  constructor
  · rw [execCmds_split_database, execCmds_split_database]
  · intro container command h
    exact ⟨by simp [exec_run, h], rfl⟩

/-- Witness for C5 at a concrete failing executor. -/
theorem C5_failures_nonfatal_witness :
    execCmds (split_database (fun _ _ => (1, "boom")) none
        ["sentry_organization"] "sentry" "control" true false) =
      execCmds (split_database (fun _ _ => (0, "")) none
        ["sentry_organization"] "sentry" "control" true false)
    ∧ (exec_run (fun _ _ => (1, "boom")) "sentry-postgres-1" ["pg_dump"]).1 =
        [Event.exec "sentry-postgres-1" (wrapped_command ["pg_dump"]),
         Event.echo "Container operation Failed!",
         Event.echo ("Container operation failed with " ++ "boom")] :=
  ⟨(C5_failures_nonfatal (fun _ _ => (1, "boom")) (fun _ _ => (0, ""))
      none ["sentry_organization"] "sentry" "control" true false).1,
   ((C5_failures_nonfatal (fun _ _ => (1, "boom")) (fun _ _ => (0, ""))
      none ["sentry_organization"] "sentry" "control" true false).2
      "sentry-postgres-1" ["pg_dump"] (by decide)).1⟩

/-- C10: `exec_run` returns only the captured output, never the exit
code, on success and failure alike; its return value cannot distinguish
a failed step from a successful one with the same output. -/
theorem C10_exec_run_returns_output_only (ex : Executor) (container : String)
    (command : List String) :
    (exec_run ex container command).2 =
      (ex container (wrapped_command command)).2
    ∧ ∀ (code1 code2 : Nat) (out : String),
        (exec_run (fun _ _ => (code1, out)) container command).2 =
        (exec_run (fun _ _ => (code2, out)) container command).2 :=
  ⟨rfl, fun _ _ _ => rfl⟩

/-- C1: when the configured monolith region equals the legacy name,
`revise_organization_mappings` modifies no mapping record; otherwise it
updates exactly the records whose region name equals the legacy name to
the monolith region (leaving every other record in place) and echoes the
count of records whose region name equalled the legacy name. -/
theorem C1_revise_organization_mappings (monolith legacy : String)
    (mappings : List OrganizationMapping) :
    (monolith = legacy →
      (revise_organization_mappings monolith mappings legacy).mappings
        = mappings)
    ∧ (monolith ≠ legacy →
        ((revise_organization_mappings monolith mappings legacy).mappings.length
            = mappings.length
         ∧ (∀ (i : Nat) (r : OrganizationMapping), mappings[i]? = some r →
             (revise_organization_mappings monolith mappings
                legacy).mappings[i]? =
               some (if r.region_name = legacy then
                       { r with region_name := monolith }
                     else r))
         ∧ (revise_organization_mappings monolith mappings legacy).echoes =
             ["> " ++ toString
                 (mappings.countP (fun r => r.region_name = legacy))
               ++ " OrganizationMapping record(s) have been updated from \x27"
               ++ legacy ++ "\x27 to \x27" ++ monolith ++ "\x27"])) := by
  constructor
  · intro h
    simp [revise_organization_mappings, h]
  · intro h
    refine ⟨?_, ?_, ?_⟩
    · simp [revise_organization_mappings, h]
    · intro i r hr
      simp [revise_organization_mappings, h, List.getElem?_map, hr]
    · simp [revise_organization_mappings, h, List.countP_eq_length_filter]

/-- Witness for C1 at concrete inputs covering both branches. -/
theorem C1_revise_organization_mappings_witness :
    (revise_organization_mappings "us" [⟨1, "acme", "old"⟩] "us").mappings
        = [⟨1, "acme", "old"⟩]
    ∧ (revise_organization_mappings "us"
        [⟨1, "acme", "old"⟩, ⟨2, "bar", "eu"⟩] "old").mappings.length = 2 :=
  ⟨(C1_revise_organization_mappings "us" "us" [⟨1, "acme", "old"⟩]).1 rfl,
   ((C1_revise_organization_mappings "us" "old"
      [⟨1, "acme", "old"⟩, ⟨2, "bar", "eu"⟩]).2 (by decide)).1⟩

/-- C9: when the monolith region differs from the legacy name, after
`revise_organization_mappings` no record carries the legacy region name,
and every record whose region name was not the legacy name is unchanged
in all fields (same record at the same position). -/
theorem C9_revise_frame (monolith legacy : String)
    (mappings : List OrganizationMapping) (h : monolith ≠ legacy) :
    (∀ r ∈ (revise_organization_mappings monolith mappings legacy).mappings,
        r.region_name ≠ legacy)
    ∧ (revise_organization_mappings monolith mappings
        legacy).mappings.length = mappings.length
    ∧ ∀ (i : Nat) (r : OrganizationMapping), mappings[i]? = some r →
        r.region_name ≠ legacy →
        (revise_organization_mappings monolith mappings
           legacy).mappings[i]? = some r := by
  refine ⟨?_, ?_, ?_⟩
  · intro r hr
    simp only [revise_organization_mappings, if_neg h] at hr
    rcases List.mem_map.1 hr with ⟨r0, _, rfl⟩
    by_cases h0 : r0.region_name = legacy
    · rw [if_pos h0]
      exact h
    · rw [if_neg h0]
      exact h0
  · simp [revise_organization_mappings, h]
  · intro i r hr hneq
    simp [revise_organization_mappings, h, List.getElem?_map, hr, hneq]

/-- Witness for C9 at a concrete input. -/
theorem C9_revise_frame_witness :
    (revise_organization_mappings "us"
        [⟨1, "acme", "old"⟩, ⟨2, "bar", "eu"⟩] "old").mappings[1]? =
      some ⟨2, "bar", "eu"⟩ :=
  (C9_revise_frame "us" "old" [⟨1, "acme", "old"⟩, ⟨2, "bar", "eu"⟩]
    (by decide)).2.2 1 ⟨2, "bar", "eu"⟩ (by decide) (by decide)

/-- C3: a model whose silo metadata allows CONTROL and not REGION has
its backing table name appended to the Control Table Set by the
classifier, and the Region Table Set is left unchanged. -/
theorem C3_control_only_classification (st : ClassifyState) (m : ModelInfo)
    (modes : List SiloMode) (h : m.silo_limit = some modes)
    (hc : SiloMode.control ∈ modes) (hr : SiloMode.region ∉ modes) :
    (classifyStep st m).control_tables = st.control_tables ++ [m.db_table]
    ∧ (classifyStep st m).region_tables = st.region_tables
    ∧ (classifyStep st m).warnings = st.warnings := by
  simp [classifyStep, h, hc, hr]

/-- Witness for C3 at a concrete state and model. -/
theorem C3_control_only_classification_witness :
    (classifyStep ⟨["c0"], ["r0"], []⟩
        ⟨"sentry_useremail", some [SiloMode.control]⟩).control_tables =
      ["c0", "sentry_useremail"]
    ∧ (classifyStep ⟨["c0"], ["r0"], []⟩
        ⟨"sentry_useremail", some [SiloMode.control]⟩).region_tables =
      ["r0"] :=
  ⟨(C3_control_only_classification ⟨["c0"], ["r0"], []⟩
      ⟨"sentry_useremail", some [SiloMode.control]⟩ [SiloMode.control]
      rfl (by decide) (by decide)).1,
   (C3_control_only_classification ⟨["c0"], ["r0"], []⟩
      ⟨"sentry_useremail", some [SiloMode.control]⟩ [SiloMode.control]
      rfl (by decide) (by decide)).2.1⟩

/-- C4: a model without silo-limit metadata makes the classifier emit a
warning naming that model's table, and its table is added to neither the
Control Table Set nor the Region Table Set. -/
theorem C4_missing_silo_metadata (st : ClassifyState) (m : ModelInfo)
    (h : m.silo_limit = none) :
    (classifyStep st m).control_tables = st.control_tables
    ∧ (classifyStep st m).region_tables = st.region_tables
    ∧ (classifyStep st m).warnings = st.warnings
        ++ ["> Could not find silo assignment for " ++ m.db_table] := by
  simp [classifyStep, h]

/-- Witness for C4 at a concrete state and model. -/
theorem C4_missing_silo_metadata_witness :
    (classifyStep ⟨["c0"], ["r0"], []⟩
        ⟨"south_migrationhistory", none⟩).control_tables = ["c0"]
    ∧ (classifyStep ⟨["c0"], ["r0"], []⟩
        ⟨"south_migrationhistory", none⟩).warnings =
      ["> Could not find silo assignment for south_migrationhistory"] :=
  ⟨(C4_missing_silo_metadata ⟨["c0"], ["r0"], []⟩
      ⟨"south_migrationhistory", none⟩ rfl).1,
   (C4_missing_silo_metadata ⟨["c0"], ["r0"], []⟩
      ⟨"south_migrationhistory", none⟩ rfl).2.2⟩

/-- C2 counterexample: with an empty table list, the dump command built
by `split_database` carries no `-t` argument at all, although
`django_migrations` is a fixed framework table (of both seeds), so the
`-t` arguments are not the fixed framework tables plus the provided
list — `split_database` itself contributes no framework tables. -/
theorem C2_counterexample_no_framework_tables :
    "django_migrations" ∈ control_seed
    ∧ "django_migrations" ∈ region_seed
    ∧ tArgs (dump_command [] "sentry" "control") = [] := by
  refine ⟨by decide, by decide, by decide⟩

/-- C2 (amended): the `-t` arguments of the dump command built by
`split_database` are exactly the provided table list, one per table, in
order, and no others (for any source database not itself literally named
`-t`); the fixed framework tables appear only because the driver
pre-seeds the table lists with them. -/
theorem C2_dump_command_t_args (tables : List String)
    (source destination : String) (h : source ≠ "-t") :
    tArgs (dump_command tables source destination) = tables := by
  show tArgs ("pg_dump" :: "-U" :: "postgres" :: "-d" :: source :: "--clean" ::
    (tables.flatMap (fun table => ["-t", table])
      ++ [">", "/tmp/" ++ destination ++ "-tables.sql"])) = tables
  rw [tArgs_cons_ne _ _ (by decide), tArgs_cons_ne _ _ (by decide),
      tArgs_cons_ne _ _ (by decide), tArgs_cons_ne _ _ (by decide),
      tArgs_cons_ne _ _ h, tArgs_cons_ne _ _ (by decide), tArgs_flatMap,
      tArgs_cons_ne _ _ (by decide)]
  simp [tArgs]

/-- Witness for the amended C2 at a concrete input. -/
theorem C2_dump_command_t_args_witness :
    ("sentry" : String) ≠ "-t"
    ∧ tArgs (dump_command ["sentry_organization", "sentry_team"]
        "sentry" "region") = ["sentry_organization", "sentry_team"] :=
  ⟨by decide,
   C2_dump_command_t_args ["sentry_organization", "sentry_team"]
     "sentry" "region" (by decide)⟩

/-- C8 counterexample: the classifier deduplicates nothing, so a
registry in which two models share a backing table gives a Region Table
Set with a duplicate. -/
theorem C8_counterexample_duplicates :
    ¬ (classify [⟨"sentry_organizationmember", some [SiloMode.region]⟩,
                 ⟨"sentry_organizationmember", some [SiloMode.region]⟩]
        ).region_tables.Nodup := by
  decide

/-- C8 (amended): the table lists built by the classifier are
duplicate-free provided the table names of the classified models are
pairwise distinct per mode and disjoint from the corresponding fixed
seed; the code itself performs no deduplication. -/
theorem C8_nodup_when_distinct (registry : List ModelInfo)
    (hc : ((registry.filter (fun m => hasMode m SiloMode.control)).map
        ModelInfo.db_table).Nodup)
    (hcd : ∀ t ∈ (registry.filter (fun m => hasMode m SiloMode.control)).map
        ModelInfo.db_table, t ∉ control_seed)
    (hr : ((registry.filter (fun m => hasMode m SiloMode.region)).map
        ModelInfo.db_table).Nodup)
    (hrd : ∀ t ∈ (registry.filter (fun m => hasMode m SiloMode.region)).map
        ModelInfo.db_table, t ∉ region_seed) :
    (classify registry).control_tables.Nodup
    ∧ (classify registry).region_tables.Nodup := by
  rw [classify_control, classify_region]
  constructor
  · exact List.Nodup.append (by decide) hc (fun a ha hb => hcd a hb ha)
  · exact List.Nodup.append (by decide) hr (fun a ha hb => hrd a hb ha)

/-- Witness for the amended C8 at a concrete registry. -/
theorem C8_nodup_when_distinct_witness :
    (classify [⟨"sentry_useremail", some [SiloMode.control]⟩,
               ⟨"sentry_organizationmember", some [SiloMode.region]⟩]
      ).control_tables.Nodup :=
  (C8_nodup_when_distinct
    [⟨"sentry_useremail", some [SiloMode.control]⟩,
     ⟨"sentry_organizationmember", some [SiloMode.region]⟩]
    (by decide) (by decide) (by decide) (by decide)).1

/-- C7: `main` first classifies the registry (echoing the warnings),
then rewrites the organization mappings, then splits the control tables
(the control seed extended by the CONTROL-mode model tables) into the
database named `"control"`, then splits the region tables (the region
seed extended by the REGION-mode model tables) into `"region"`; both
splits read from the CLI-provided source database, and the rewritten
mapping table is the one produced by the rewrite step. -/
theorem C7_driver_sequence (registry : List ModelInfo) (ex : Executor)
    (env : Option String) (monolith : String)
    (mappings : List OrganizationMapping) (database : String)
    (reset verbose : Bool) (legacy : String) :
    (main_run registry ex env monolith mappings database reset verbose
        legacy).events =
      (classify registry).warnings.map Event.echo
        ++ (revise_organization_mappings monolith mappings
            legacy).echoes.map Event.echo
        ++ split_database ex env
            (control_seed
              ++ (registry.filter (fun m => hasMode m SiloMode.control)).map
                  ModelInfo.db_table)
            database "control" reset verbose
        ++ split_database ex env
            (region_seed
              ++ (registry.filter (fun m => hasMode m SiloMode.region)).map
                  ModelInfo.db_table)
            database "region" reset verbose
    ∧ (main_run registry ex env monolith mappings database reset verbose
        legacy).mappings =
      (revise_organization_mappings monolith mappings legacy).mappings := by
  constructor
  · simp [main_run, classify_control, classify_region]
  · rfl

end SplitSilo
